import Mathlib

/-
  Verification of the legoBTLE4PI driver core against its specification.

  The development shallowly embeds the message codec and the command/feedback
  state handling of the repository:

  * `LegoBTLE/LegoWP/messages/upstream.py` — inbound message decoding
    (`UpStreamMessageBuilder.build`, `PORT_CMD_FEEDBACK.__post_init__`);
  * `LegoBTLE/LegoWP/messages/downstream.py` — outbound command encoding
    (`CMD_SET_ACC_DECC_PROFILE`, `CMD_TURN_SPEED_DEV`,
    `CMD_START_MOVE_DEV_DEGREES`);
  * `legoBTLE/device/ADevice.py` — `Device._set_cmd_running`,
    `Device._cmd_send`, `Device._connect_srv`;
  * `LegoBTLE/Device/SingleMotor.py` and `legoBTLE/device/SynchronizedMotor.py`
    — the command-feedback notification handlers;
  * `LegoBTLE/Device/AMotor.py` — the stall watchdog `_watch_stalling` and the
    command operations returning the send result;
  * `legoBTLE/device/SynchronizedMotor.py` — `START_MOVE_DEGREES_SYNCED` and
    `GOTO_ABS_POS_SYNCED`.

  Byte buffers are `List ℕ` (each entry one byte).  Python `bytearray`
  indexing yields `int`; `xs.getD i 0` plays that role (all accesses used by
  the theorems stay in bounds, enforced by explicit length guards where the
  source would raise `IndexError`).  Fallible constructors return `Except`.
  The module `LegoBTLE/LegoWP/types.py` (the byte constants of the wire
  protocol) is not part of the source tree; its constants are modelled from
  the spec, as marked below.
-/

namespace LegoBTLE

/-- Little-endian 2-byte unsigned encoding, as `int.to_bytes(2, 'little')`. -/
def uintle16 (n : ℕ) : List ℕ := [n % 256, n / 256 % 256]

/-- Little-endian 4-byte unsigned encoding, as `bitstring.Bits(uintle=n, length=32)`. -/
def uintle32 (n : ℕ) : List ℕ :=
  [n % 256, n / 256 % 256, n / 65536 % 256, n / 16777216 % 256]

/-- One signed byte, little-endian, two's complement:
`bitstring.Bits(intle=x, length=8).bytes` for `-128 ≤ x ≤ 127` (the library
raises a creation error outside that range; theorems that depend on the value
carry the range hypothesis). -/
def intle8 (x : ℤ) : ℕ := (x % 256).toNat

/-- A Python runtime value, only as far as the upstream decoder needs it:
`PORT_CMD_FEEDBACK.__post_init__` compares `self.COMMAND[0]` (an `int`,
because indexing a `bytearray` yields `int`) with the `bytes` literals
`b'\x07'` / `b'\x09'`. -/
inductive PyVal where
  | int (n : ℤ)
  | bytes (bs : List ℕ)
deriving DecidableEq

/-- Python `==` on the fragment above: `int == bytes` is `False` in Python,
whatever the values; equal kinds compare their contents. -/
def pyEq : PyVal → PyVal → Bool
  | .int a, .int b => a == b
  | .bytes a, .bytes b => a == b
  | _, _ => false

/-- Python exceptions surfaced by the embedded code. -/
inductive PyErr where
  | nameError (s : String)
  | typeError
  | valueError (s : String)
  | indexError
deriving DecidableEq

def exceptOk {ε α : Type} : Except ε α → Bool
  | .ok _ => true
  | .error _ => false

/-- Decoded `PORT_CMD_FEEDBACK` notification: the raw buffer plus the port and
feedback-byte lists built by `__post_init__`
(`LegoBTLE/LegoWP/messages/upstream.py`, lines 141-154). -/
structure PORT_CMD_FEEDBACK where
  COMMAND : List ℕ
  m_port : List ℕ
  m_cmd_feedback : List ℕ
deriving DecidableEq

/-- Embeds `PORT_CMD_FEEDBACK.__post_init__`: starts with one port entry
(`COMMAND[3]`) and one feedback byte (`COMMAND[4]`), then appends a second
(third) pair when `self.COMMAND[0] == b'\x07'` (`b'\x09'`).  Those guards
compare the `int` `COMMAND[0]` with a `bytes` literal (`pyEq`), so they are
never true.  Buffers shorter than 5 bytes raise `IndexError` at
`COMMAND[4]` (`none`). -/
def PORT_CMD_FEEDBACK_decode (cmd : List ℕ) : Option PORT_CMD_FEEDBACK :=
  if 5 ≤ cmd.length then
    let ports0 := [cmd.getD 3 0]
    let fb0 := [cmd.getD 4 0]
    let ports1 := if pyEq (.int (cmd.getD 0 0)) (.bytes [7])
      then ports0 ++ [cmd.getD 5 0] else ports0
    let fb1 := if pyEq (.int (cmd.getD 0 0)) (.bytes [7])
      then fb0 ++ [cmd.getD 6 0] else fb0
    let ports2 := if pyEq (.int (cmd.getD 0 0)) (.bytes [9])
      then ports1 ++ [cmd.getD 7 0] else ports1
    let fb2 := if pyEq (.int (cmd.getD 0 0)) (.bytes [9])
      then fb1 ++ [cmd.getD 8 0] else fb1
    some ⟨cmd, ports2, fb2⟩
  else none

/-- The trailing byte of a feedback buffer,
`notification.COMMAND[len(notification.COMMAND) - 1]`, on which both feedback
handlers branch. -/
def trailingByte (cmd : List ℕ) : ℕ := cmd.getD (cmd.length - 1) 0

/-- The started/finished signalling flags and the port-free flag of a single
motor (`MotorState` of the data model). -/
structure MotorFlags where
  E_CMD_STARTED : Bool
  E_CMD_FINISHED : Bool
  port_free : Bool
deriving DecidableEq

/-- Embeds `Device._set_cmd_running` (`legoBTLE/device/ADevice.py`, lines 1016-1023):
`state=True` sets the started-signal and clears the finished-signal;
`state=False` clears the started-signal and sets the finished-signal. -/
def Device_set_cmd_running (state : Bool) (fl : MotorFlags) : MotorFlags :=
  if state then { fl with E_CMD_STARTED := true, E_CMD_FINISHED := false }
  else { fl with E_CMD_STARTED := false, E_CMD_FINISHED := true }

/-- Embeds `SingleMotor.cmd_feedback_notification_set`
(`LegoBTLE/Device/SingleMotor.py`, lines 643-715).  Each branch evaluates an
unbound local name before it reaches its flag updates, so the handler raises
`NameError` on every notification:

* trailing byte `0x01` (line 667): line 669 evaluates `fut` in
  `self._watch_stalling(self._time_to_stalled, fut)` — `fut` is bound nowhere
  in the file — before `self._set_cmd_running(True)` (line 674) and
  `self.port_free.clear()` (line 675) run;
* trailing byte `0x0a` (line 681): line 682 reads the unbound bare name
  `_wst` (`if _wst is not None`) before `self._set_cmd_running(False)`
  (line 689) and `self.port_free.set()` (line 691) run;
* any other trailing byte (line 696): line 697 reads the same unbound `_wst`
  before the updates at lines 705-707 run. -/
def SingleMotor_cmd_feedback_notification_set (notification : List ℕ)
    (fl : MotorFlags) : Except PyErr MotorFlags :=
  if trailingByte notification = 1 then
    .error (.nameError "fut")
  else if trailingByte notification = 10 then
    .error (.nameError "wst")
  else
    .error (.nameError "wst")

/-- Flag state of a synchronized (virtual-port) motor: its own signals and
port-free flag plus the two physical motors' port-free flags. -/
structure SyncMotorFlags where
  E_CMD_STARTED : Bool
  E_CMD_FINISHED : Bool
  port_free : Bool
  motor_a_port_free : Bool
  motor_b_port_free : Bool
deriving DecidableEq

/-- Embeds `SynchronizedMotor.cmd_feedback_notification_set`
(`legoBTLE/device/SynchronizedMotor.py`, lines 1260-1312).  The branch is
chosen by the trailing byte of the raw buffer only:

* `0x01` (line 1267): `self._set_cmd_running(True)` then clear the virtual
  port-free flag and both physical motors' port-free flags (lines 1275-1278);
* `0x0a` (line 1284): `self._set_cmd_running(False)` then set the virtual and
  both physical port-free flags (lines 1288-1291);
* anything else (line 1296, reported as CMD DISCARDED):
  `self._set_cmd_running(False)` and set all three flags (lines 1303-1306),
  identical flag effect to the `0x0a` branch. -/
def SynchronizedMotor_cmd_feedback_notification_set (notification : List ℕ)
    (fl : SyncMotorFlags) : SyncMotorFlags :=
  if trailingByte notification = 1 then
    { fl with E_CMD_STARTED := true, E_CMD_FINISHED := false,
              port_free := false, motor_a_port_free := false,
              motor_b_port_free := false }
  else if trailingByte notification = 10 then
    { fl with E_CMD_STARTED := false, E_CMD_FINISHED := true,
              port_free := true, motor_a_port_free := true,
              motor_b_port_free := true }
  else
    { fl with E_CMD_STARTED := false, E_CMD_FINISHED := true,
              port_free := true, motor_a_port_free := true,
              motor_b_port_free := true }

/-- Transport bookkeeping of `Device._cmd_send`. -/
structure SendLog where
  written : List (List ℕ)
  last_cmd_snt : Option (List ℕ)
  last_cmd_failed : Option (List ℕ)
deriving DecidableEq

def SendLog.empty : SendLog := ⟨[], none, none⟩

/-- Embeds `Device._cmd_send` (`legoBTLE/device/ADevice.py`, lines 707-733): writes
`cmd.COMMAND[:2]` and then `cmd.COMMAND[1:]` to the connection and returns
`True`; if a connection error is raised during the writes (`writeOk = false`)
it records the command in `last_cmd_failed` and returns `False` — it never
raises to the caller and never consults any feedback. -/
def Device_cmd_send (writeOk : Bool) (cmd : List ℕ) (log : SendLog) :
    Bool × SendLog :=
  if writeOk then
    (true, { log with written := log.written ++ [cmd.take 2, cmd.drop 1],
                      last_cmd_snt := some cmd })
  else
    (false, { log with last_cmd_failed := some cmd })

/-- The `for _ in range(1, 3)` loop of `Device._connect_srv`: each iteration
sends the connect request; on failure it `continue`s, on success it `break`s.
Returns the final value of `s` and the number of send attempts performed. -/
def connectLoop : List Bool → Bool × ℕ
  | [] => (false, 0)
  | o :: rest =>
    if o then (true, 1)
    else
      let r := connectLoop rest
      (r.1, r.2 + 1)

/-- Models `readexactly(n)` on a byte stream: `n` bytes and the rest, or `none` when
the stream is too short. -/
def readexactly (n : ℕ) (stream : List ℕ) : Option (List ℕ × List ℕ) :=
  if n ≤ stream.length then some (stream.take n, stream.drop n) else none

/-- Embeds `Device._connect_srv` (`legoBTLE/device/ADevice.py`, lines 787-820): the
two-iteration send loop (`range(1, 3)`); if both attempts fail
(`s` still false) it raises `ConnectionError`, otherwise it reads a 1-byte
length prefix and then exactly that many bytes as the server's answer.
`o1`, `o2` are the outcomes the transport would give the first and second
send; the second component counts the sends actually attempted. -/
def Device_connect_srv (o1 o2 : Bool) (stream : List ℕ) :
    Except String (List ℕ) × ℕ :=
  let r := connectLoop [o1, o2]
  if r.1 = false then (.error "ConnectionError", r.2)
  else
    match readexactly 1 stream with
    | none => (.error "IncompleteReadError", r.2)
    | some (hd, rest) =>
      match readexactly (hd.getD 0 0) rest with
      | none => (.error "IncompleteReadError", r.2)
      | some (data, _) => (.ok data, r.2)

/-- Embeds `SynchronizedMotor.GOTO_ABS_POS_SYNCED`
(`legoBTLE/device/SynchronizedMotor.py`, lines 1118-1254), reduced to the
feedback-visible slice: after acquiring all three gates (clearing the three
port-free flags, lines 1208-1213) and `self._set_cmd_running(False)`
(line 1214), the command is sent (`s = await self._cmd_send(command)`,
line 1231), the started notification and any further feedback notifications
are processed by `cmd_feedback_notification_set`, the operation waits on
`E_CMD_FINISHED` (line 1238) and returns `s` (line 1254) — the send result,
untouched by the feedback outcome.  `none` models a caller that never
unblocks because no processed notification set `E_CMD_FINISHED`. -/
def GOTO_ABS_POS_SYNCED_run (writeOk : Bool) (cmd : List ℕ)
    (notifications : List (List ℕ)) : Option Bool :=
  let fl0 : SyncMotorFlags :=
    { E_CMD_STARTED := false, E_CMD_FINISHED := true,
      port_free := false, motor_a_port_free := false,
      motor_b_port_free := false }
  let s := (Device_cmd_send writeOk cmd SendLog.empty).1
  let fl := List.foldl
    (fun f n => SynchronizedMotor_cmd_feedback_notification_set n f)
    fl0 notifications
  if fl.E_CMD_FINISHED then some s else none

/- Wire-protocol byte constants.

`LegoBTLE/LegoWP/types.py` is not among the source files; only its importers
are.  The constants below are therefore modelled from the spec (§3, §6: the
closed set of message types, "bit-exact with the vendor wire protocol") and
from the example buffers left in comments in
`LegoBTLE/LegoWP/messages/upstream.py` (`x82` feedback, `x45` port value,
`x47` port notification). -/

/-- Modelled from the spec: message-type byte `UPS_DNS_HUB_ACTION`
(`LegoBTLE/LegoWP/types.py` is missing from the sources). -/
def MESSAGE_TYPE_UPS_DNS_HUB_ACTION : ℕ := 0x02

/-- Modelled from the spec: message-type byte `UPS_DNS_HUB_ALERT`
(`LegoBTLE/LegoWP/types.py` is missing from the sources). -/
def MESSAGE_TYPE_UPS_DNS_HUB_ALERT : ℕ := 0x03

/-- Modelled from the spec: message-type byte `UPS_HUB_ATTACHED_IO`
(`LegoBTLE/LegoWP/types.py` is missing from the sources). -/
def MESSAGE_TYPE_UPS_HUB_ATTACHED_IO_byte : ℕ := 0x04

/-- Modelled from the spec: message-type byte `UPS_HUB_GENERIC_ERROR`
(`LegoBTLE/LegoWP/types.py` is missing from the sources). -/
def MESSAGE_TYPE_UPS_HUB_GENERIC_ERROR : ℕ := 0x05

/-- Modelled from the spec: message-type byte `UPS_PORT_VALUE`, corroborated
by the `b'\x08\x00\x45\x00...'` sample comments in `upstream.py`. -/
def MESSAGE_TYPE_UPS_PORT_VALUE : ℕ := 0x45

/-- Modelled from the spec: message-type byte `UPS_PORT_NOTIFICATION`,
corroborated by the `b'\x0a\x00\x47...'` sample comment in `upstream.py`. -/
def MESSAGE_TYPE_UPS_PORT_NOTIFICATION : ℕ := 0x47

/-- Modelled from the spec: message-type byte `UPS_PORT_CMD_FEEDBACK`,
corroborated by the `b'\x05\x00\x82\x10\x0a'` sample comments in
`SingleMotor.py` and `upstream.py`. -/
def MESSAGE_TYPE_UPS_PORT_CMD_FEEDBACK : ℕ := 0x82

/-- Modelled from the spec: message-type byte `UPS_DNS_EXT_SERVER_CMD`, the
repository's own external-server message kind; only its distinctness from
the seven other type bytes matters below. -/
def MESSAGE_TYPE_UPS_DNS_EXT_SERVER_CMD : ℕ := 0x5c

/-- Modelled from the spec: message-type byte `DNS_PORT_CMD` (port output
command, §6). -/
def MESSAGE_TYPE_DNS_PORT_CMD : ℕ := 0x81

/-- Modelled from the spec: peripheral-event byte `IO_ATTACHED` ("attach/detach
+ event" fields of the hub-attached-io notification, §3/§6;
`LegoBTLE/LegoWP/types.py` is missing from the sources). -/
def PERIPHERAL_EVENT_IO_ATTACHED : ℕ := 0x01

/-- Modelled from the spec: peripheral-event byte `VIRTUAL_IO_ATTACHED`
("virtual I/O attached", §4.5; `LegoBTLE/LegoWP/types.py` is missing from the
sources). -/
def PERIPHERAL_EVENT_VIRTUAL_IO_ATTACHED : ℕ := 0x02

/-- Modelled from the spec: sub-command opcode `SET_ACC_PROFILE` (§6 profile
definition); one byte, value immaterial to the theorems below. -/
def SUB_COMMAND_SET_ACC_PROFILE : ℕ := 0x05

/-- Modelled from the spec: sub-command opcode `TURN_SPD_UNLIMITED`
(START_SPEED, §6); one byte. -/
def SUB_COMMAND_TURN_SPD_UNLIMITED : ℕ := 0x07

/-- Modelled from the spec: sub-command opcode `TURN_SPD_UNLIMITED_SYNC`
(START_SPEED_SYNCED, §6); one byte. -/
def SUB_COMMAND_TURN_SPD_UNLIMITED_SYNC : ℕ := 0x08

/-- Modelled from the spec: sub-command opcode `TURN_FOR_DEGREES`
(START_MOVE_DEGREES, §6); one byte. -/
def SUB_COMMAND_TURN_FOR_DEGREES : ℕ := 0x0b

/-- Modelled from the spec: sub-command opcode `TURN_FOR_DEGREES_SYNC`
(START_MOVE_DEGREES_SYNCED, §6); one byte. -/
def SUB_COMMAND_TURN_FOR_DEGREES_SYNC : ℕ := 0x0c

/-- The closed tagged union built by `UpStreamMessageBuilder.build`
(`LegoBTLE/LegoWP/messages/upstream.py`).  Note the builder constructs seven
variants; `HUB_ALERT_NOTIFICATION` exists as a class in the file but no
dispatch arm returns it. -/
inductive UPSTREAM_MESSAGE where
  | HUB_ACTION_NOTIFICATION (cmd : List ℕ)
  | HUB_ATTACHED_IO_NOTIFICATION (cmd : List ℕ)
  | DEV_GENERIC_ERROR_NOTIFICATION (cmd : List ℕ)
  | PORT_CMD_FEEDBACK_MSG (fb : PORT_CMD_FEEDBACK)
  | DEV_VALUE (cmd : List ℕ)
  | DEV_PORT_NOTIFICATION (cmd : List ℕ)
  | EXT_SERVER_NOTIFICATION (cmd : List ℕ)
deriving DecidableEq

/-- Python sequence indexing `xs[i]` with an `int` index: valid iff
`-len ≤ i < len` (a negative index counts from the end of the sequence);
outside that range the access raises `IndexError`. -/
def pyIndexOk (i : ℤ) (len : ℕ) : Bool :=
  decide (-(len : ℤ) ≤ i) && decide (i < (len : ℤ))

/-- Embeds `HUB_ACTION_NOTIFICATION.__post_init__` (`upstream.py`,
lines 86-89): reads `COMMAND[0]` and `COMMAND[COMMAND[0] - 1]` (for
`COMMAND[0] = 0` the index is `-1`, which Python resolves to the last byte);
raises `IndexError` when `COMMAND[self.COMMAND[0] - 1]` is out of range.  The
extracted fields are byte reads of the stored raw buffer, so the embedding
keeps the buffer itself. -/
def HUB_ACTION_NOTIFICATION_init (data : List ℕ) :
    Except PyErr UPSTREAM_MESSAGE :=
  if 1 ≤ data.length then
    if pyIndexOk ((data.getD 0 0 : ℤ) - 1) data.length then
      .ok (.HUB_ACTION_NOTIFICATION data)
    else .error .indexError
  else .error .indexError

/-- Embeds `HUB_ATTACHED_IO_NOTIFICATION.__post_init__` (`upstream.py`,
lines 96-106): reads `COMMAND[0]`, `COMMAND[3]`, `COMMAND[4]`; when the event
byte is `IO_ATTACHED` or `VIRTUAL_IO_ATTACHED` it also takes the slice
`COMMAND[5:6]` (a slice never raises) and a `types.key_name` lookup (a name
lookup, modelled as total since `types.py` is absent), and for
`VIRTUAL_IO_ATTACHED` it additionally reads `COMMAND[7]` and `COMMAND[8]`. -/
def HUB_ATTACHED_IO_NOTIFICATION_init (data : List ℕ) :
    Except PyErr UPSTREAM_MESSAGE :=
  if 5 ≤ data.length then
    if data.getD 4 0 = PERIPHERAL_EVENT_IO_ATTACHED
        ∨ data.getD 4 0 = PERIPHERAL_EVENT_VIRTUAL_IO_ATTACHED then
      if data.getD 4 0 = PERIPHERAL_EVENT_VIRTUAL_IO_ATTACHED then
        if 9 ≤ data.length then .ok (.HUB_ATTACHED_IO_NOTIFICATION data)
        else .error .indexError
      else .ok (.HUB_ATTACHED_IO_NOTIFICATION data)
    else .ok (.HUB_ATTACHED_IO_NOTIFICATION data)
  else .error .indexError

/-- Embeds `DEV_GENERIC_ERROR_NOTIFICATION.__post_init__` (`upstream.py`,
lines 126-131): reads `COMMAND[3]` and `COMMAND[4]` (plus total
`types.key_name` lookups). -/
def DEV_GENERIC_ERROR_NOTIFICATION_init (data : List ℕ) :
    Except PyErr UPSTREAM_MESSAGE :=
  if 5 ≤ data.length then .ok (.DEV_GENERIC_ERROR_NOTIFICATION data)
  else .error .indexError

/-- Embeds `DEV_VALUE.__post_init__` (`upstream.py`, lines 173-180): reads
`COMMAND[0]` and `COMMAND[3]`; the value fields come from the slice
`COMMAND[4:]`, which never raises. -/
def DEV_VALUE_init (data : List ℕ) : Except PyErr UPSTREAM_MESSAGE :=
  if 4 ≤ data.length then .ok (.DEV_VALUE data)
  else .error .indexError

/-- Embeds `DEV_PORT_NOTIFICATION.__post_init__` (`upstream.py`,
lines 201-210): reads `COMMAND[0]`, `COMMAND[3]`, `COMMAND[4]`, `COMMAND[5]`
and `COMMAND[COMMAND[0] - 1]` (Python index semantics as in `pyIndexOk`). -/
def DEV_PORT_NOTIFICATION_init (data : List ℕ) :
    Except PyErr UPSTREAM_MESSAGE :=
  if 6 ≤ data.length then
    if pyIndexOk ((data.getD 0 0 : ℤ) - 1) data.length then
      .ok (.DEV_PORT_NOTIFICATION data)
    else .error .indexError
  else .error .indexError

/-- Embeds `EXT_SERVER_NOTIFICATION.__post_init__` (`upstream.py`,
lines 113-119): reads `COMMAND[2]` and `COMMAND[5]` (plus total
`types.key_name` lookups). -/
def EXT_SERVER_NOTIFICATION_init (data : List ℕ) :
    Except PyErr UPSTREAM_MESSAGE :=
  if 6 ≤ data.length then .ok (.EXT_SERVER_NOTIFICATION data)
  else .error .indexError

/-- Embeds `UpStreamMessageBuilder.build` (`upstream.py`, lines 49-79):
dispatch on the type byte `data[2]` over seven message kinds, each arm
running the selected variant's `__post_init__` (which may raise `IndexError`
on its own field reads, modelled by the `..._init` functions above); any
other type byte raises `TypeError`.  The initial `print` (line 56) indexes
`data[3]`, so buffers shorter than 4 bytes raise `IndexError` before the
dispatch. -/
def UpStreamMessageBuilder_build (data : List ℕ) :
    Except PyErr UPSTREAM_MESSAGE :=
  if data.length < 4 then .error .indexError
  else if data.getD 2 0 = MESSAGE_TYPE_UPS_DNS_HUB_ACTION then
    HUB_ACTION_NOTIFICATION_init data
  else if data.getD 2 0 = MESSAGE_TYPE_UPS_HUB_ATTACHED_IO_byte then
    HUB_ATTACHED_IO_NOTIFICATION_init data
  else if data.getD 2 0 = MESSAGE_TYPE_UPS_HUB_GENERIC_ERROR then
    DEV_GENERIC_ERROR_NOTIFICATION_init data
  else if data.getD 2 0 = MESSAGE_TYPE_UPS_PORT_CMD_FEEDBACK then
    match PORT_CMD_FEEDBACK_decode data with
    | some fb => .ok (.PORT_CMD_FEEDBACK_MSG fb)
    | none => .error .indexError
  else if data.getD 2 0 = MESSAGE_TYPE_UPS_PORT_VALUE then
    DEV_VALUE_init data
  else if data.getD 2 0 = MESSAGE_TYPE_UPS_PORT_NOTIFICATION then
    DEV_PORT_NOTIFICATION_init data
  else if data.getD 2 0 = MESSAGE_TYPE_UPS_DNS_EXT_SERVER_CMD then
    EXT_SERVER_NOTIFICATION_init data
  else .error .typeError

/-- The seven type bytes `UpStreamMessageBuilder.build` dispatches on. -/
def dispatchedTypeBytes : List ℕ :=
  [MESSAGE_TYPE_UPS_DNS_HUB_ACTION, MESSAGE_TYPE_UPS_HUB_ATTACHED_IO_byte,
   MESSAGE_TYPE_UPS_HUB_GENERIC_ERROR, MESSAGE_TYPE_UPS_PORT_CMD_FEEDBACK,
   MESSAGE_TYPE_UPS_PORT_VALUE, MESSAGE_TYPE_UPS_PORT_NOTIFICATION,
   MESSAGE_TYPE_UPS_DNS_EXT_SERVER_CMD]

/-- Characterization (for the statement of the C7 theorem) of when the
variant selected by the type byte extracts all its fields without
`IndexError`, for buffers that already passed the builder's own `data[3]`
access: hub-action and port-notification need `COMMAND[COMMAND[0] - 1]` in
range (equivalently `COMMAND[0] ≤ len`, the index `-1` arising from
`COMMAND[0] = 0` being valid Python), attached-io needs 5 bytes and, for a
virtual-attach event, 9; generic error and command feedback need 5 bytes;
port value needs nothing beyond the builder's 4; external server needs 6. -/
def variantFieldsInRange (data : List ℕ) : Bool :=
  let t := data.getD 2 0
  let len := data.length
  if t = MESSAGE_TYPE_UPS_DNS_HUB_ACTION then
    decide (data.getD 0 0 ≤ len)
  else if t = MESSAGE_TYPE_UPS_HUB_ATTACHED_IO_byte then
    decide (5 ≤ len)
      && (!decide (data.getD 4 0 = PERIPHERAL_EVENT_VIRTUAL_IO_ATTACHED)
          || decide (9 ≤ len))
  else if t = MESSAGE_TYPE_UPS_HUB_GENERIC_ERROR then
    decide (5 ≤ len)
  else if t = MESSAGE_TYPE_UPS_PORT_CMD_FEEDBACK then
    decide (5 ≤ len)
  else if t = MESSAGE_TYPE_UPS_PORT_VALUE then
    true
  else if t = MESSAGE_TYPE_UPS_PORT_NOTIFICATION then
    decide (6 ≤ len) && decide (data.getD 0 0 ≤ len)
  else if t = MESSAGE_TYPE_UPS_DNS_EXT_SERVER_CMD then
    decide (6 ≤ len)
  else true

/-- Embeds `CMD_COMMON_MESSAGE_HEADER` (`downstream.py`, lines 39-45):
`hub_id = 0x00` followed by the message-type byte. -/
def CMD_COMMON_MESSAGE_HEADER (m_type : ℕ) : List ℕ := [0x00, m_type]

/-- Embeds `CMD_SET_ACC_DECC_PROFILE.__post_init__` (`downstream.py`, lines 69-89).
Guard: `self.time_to_full_speed in range(0, 10000)` — true exactly for the
integers `0 ≤ t ≤ 9999`; otherwise `ValueError` is raised and no buffer is
built.  In range, the buffer is
`handle (0x0e) + length + hub_id + type + port + (start_cond & completion_cond)
+ profile_type + time (2 bytes little-endian unsigned) + profile_nr`, with the
length byte `1 + len(header+payload)` computed before the handle is
prepended. -/
def CMD_SET_ACC_DECC_PROFILE_build (profile_type port start_cond
    completion_cond : ℕ) (time_to_full_speed : ℤ) (profile_nr : ℕ) :
    Except String (List ℕ) :=
  if 0 ≤ time_to_full_speed ∧ time_to_full_speed < 10000 then
    let body := CMD_COMMON_MESSAGE_HEADER MESSAGE_TYPE_DNS_PORT_CMD
      ++ [port] ++ [Nat.land start_cond completion_cond] ++ [profile_type]
      ++ uintle16 time_to_full_speed.toNat ++ [profile_nr]
    .ok ([0x0e] ++ [1 + body.length] ++ body)
  else
    .error "ValueError: exceeds the range limit of [0..10000]..."

/-- Embeds `CMD_TURN_SPEED_DEV.__post_init__` (`downstream.py`, lines 409-446).
The payload carries one signed speed byte (`speed * direction`) or, when
`synced`, two (`speed_1 * direction_1`, `speed_2 * direction_2`), followed by
`abs_max_power` and the combined profile byte; the length byte is
`1 + len(header+payload)`, prepended together with the handle `0x0e`. -/
def CMD_TURN_SPEED_DEV_build (synced : Bool) (port start_cond
    completion_cond : ℕ) (speed direction speed_1 direction_1 speed_2
    direction_2 : ℤ) (abs_max_power : ℕ) (profile_nr use_acc_profile
    use_decc_profile : ℕ) : List ℕ :=
  let subCmd := if synced then SUB_COMMAND_TURN_SPD_UNLIMITED_SYNC
    else SUB_COMMAND_TURN_SPD_UNLIMITED
  let maxSpdEff := if synced then
      [intle8 (speed_1 * direction_1), intle8 (speed_2 * direction_2)]
    else [intle8 (speed * direction)]
  let body := CMD_COMMON_MESSAGE_HEADER MESSAGE_TYPE_DNS_PORT_CMD
    ++ [port] ++ [Nat.land start_cond completion_cond] ++ [subCmd]
    ++ maxSpdEff ++ [abs_max_power]
    ++ [(profile_nr + use_acc_profile + use_decc_profile) % 256]
  [0x0e] ++ [1 + body.length] ++ body

/-- Embeds `CMD_START_MOVE_DEV_DEGREES.__post_init__` (`downstream.py`,
lines 519-579): degrees as 4 bytes little-endian unsigned
(`bitstring.Bits(uintle=self.degrees, length=32)`), one or two speed bytes,
`abs_max_power`, `on_completion`, combined profile byte; length byte
`1 + len(header+payload)` prepended with the handle. -/
def CMD_START_MOVE_DEV_DEGREES_build (synced : Bool) (port start_cond
    completion_cond : ℕ) (degrees : ℕ) (speed speed_a speed_b : ℤ)
    (abs_max_power : ℤ) (on_completion : ℤ) (profile_byte : ℤ) : List ℕ :=
  let subCMD := if synced then SUB_COMMAND_TURN_FOR_DEGREES_SYNC
    else SUB_COMMAND_TURN_FOR_DEGREES
  let speedEff := if synced then [intle8 speed_a, intle8 speed_b]
    else [intle8 speed]
  let body := CMD_COMMON_MESSAGE_HEADER MESSAGE_TYPE_DNS_PORT_CMD
    ++ [port] ++ [Nat.land start_cond completion_cond] ++ [subCMD]
    ++ uintle32 degrees ++ speedEff ++ [intle8 abs_max_power]
    ++ [intle8 on_completion] ++ [intle8 profile_byte]
  [0x0e] ++ [1 + body.length] ++ body

/-- Python's built-in `round` (one argument): nearest integer, ties to the
even neighbour (banker's rounding).  Arithmetic is modelled exactly over ℚ. -/
def pythonRound (q : ℚ) : ℤ :=
  let f := ⌊q⌋
  let r := q - f
  if r < 1 / 2 then f
  else if 1 / 2 < r then f + 1
  else if f % 2 = 0 then f else f + 1

/-- The `degrees=` argument computed by
`SynchronizedMotor.START_MOVE_DEGREES_SYNCED`
(`legoBTLE/device/SynchronizedMotor.py`, line 892):
`int(round(round(degrees * gear_ratio_a) + round(degrees * gear_ratio_b) / 2))`
with `(gear_ratio_a, gear_ratio_b) = self.gear_ratio_synced` (the two
motors' gear ratios, line 157).  By Python precedence only the second rounded
target is divided by 2; the outer `int(...)` is the identity on the integral
result of `round`.  The source line carries the comment "not really ok, needs
better thinking". -/
def START_MOVE_DEGREES_SYNCED_degrees (degrees : ℤ)
    (gear_ratio_a gear_ratio_b : ℚ) : ℤ :=
  pythonRound ((pythonRound ((degrees : ℚ) * gear_ratio_a) : ℚ)
    + (pythonRound ((degrees : ℚ) * gear_ratio_b) : ℚ) / 2)

/-- The formula the claim states (transcribed from the spec's words, for
comparison with the source's `START_MOVE_DEGREES_SYNCED_degrees`): the
average of the two per-motor gear-ratio-scaled targets,
`round((round(degrees * gear_ratio_a) + round(degrees * gear_ratio_b)) / 2)`. -/
def claimAveragedSyncedDegrees (degrees : ℤ)
    (gear_ratio_a gear_ratio_b : ℚ) : ℤ :=
  pythonRound (((pythonRound ((degrees : ℚ) * gear_ratio_a)
    + pythonRound ((degrees : ℚ) * gear_ratio_b) : ℤ) : ℚ) / 2)

/-- The amended reading of the source formula, transcribed independently:
the first gear-ratio-scaled rounded target plus half the second rounded
target, rounded. -/
def amendedSyncedDegrees (degrees : ℤ)
    (gear_ratio_a gear_ratio_b : ℚ) : ℤ :=
  let target_a := pythonRound ((degrees : ℚ) * gear_ratio_a)
  let target_b := pythonRound ((degrees : ℚ) * gear_ratio_b)
  pythonRound ((target_a : ℚ) + (target_b : ℚ) / 2)

/-- Observable state of the stall watchdog: the `E_MOTOR_STALLED` signal and
how often the `_on_stalled` callback has been awaited. -/
structure WatchdogState where
  E_MOTOR_STALLED : Bool
  on_stalled_calls : ℕ
deriving DecidableEq

/-- One iteration of the `while True` loop of `AMotor._watch_stalling`
(`LegoBTLE/Device/AMotor.py`, lines 236-254), in the case of a started
command with a known port value: record the baseline `m0 = pos t0`
(line 242), sleep `tts` (line 243), compare
`delta = abs(pos (t0 + tts) - m0)` with `stall_bias` (line 247): if smaller,
set `E_MOTOR_STALLED` and await the `_on_stalled` callback (lines 248-250);
otherwise clear `E_MOTOR_STALLED` (line 254).  Either way the loop continues
at `t0 + tts`, re-arming with a fresh baseline. -/
def AMotor_watch_cycle (stall_bias : ℚ) (pos : ℚ → ℤ) (tts t0 : ℚ)
    (st : WatchdogState) : WatchdogState × ℚ :=
  let m0 := pos t0
  let t1 := t0 + tts
  let delta : ℚ := |((pos t1 - m0 : ℤ) : ℚ)|
  if delta < stall_bias then
    (⟨true, st.on_stalled_calls + 1⟩, t1)
  else
    ({ st with E_MOTOR_STALLED := false }, t1)

/-- Runs `n` iterations of the watchdog loop starting at time `t0`.  The loop in
the source never exits by itself (`while True`, no `break`); `n` bounds the
observation window. -/
def AMotor_watch_run (stall_bias : ℚ) (pos : ℚ → ℤ) (tts : ℚ) :
    ℕ → ℚ → WatchdogState → WatchdogState × ℚ
  | 0, t0, st => (st, t0)
  | n + 1, t0, st =>
    let r := AMotor_watch_cycle stall_bias pos tts t0 st
    AMotor_watch_run stall_bias pos tts n r.2 r.1

/-- The value of the `E_MOTOR_STALLED` signal at query time `T` for a
watchdog armed at time 0 (signal initially cleared, line 234): the cycles
completed by `T` are those with `t0 + tts ≤ T`, i.e. `⌊T / tts⌋` many. -/
def stalledSignalAt (stall_bias : ℚ) (pos : ℚ → ℤ) (tts T : ℚ) : Bool :=
  (AMotor_watch_run stall_bias pos tts (⌊T / tts⌋).toNat 0
    ⟨false, 0⟩).1.E_MOTOR_STALLED

/-! Helper lemmas, shared between claim proofs. -/

lemma PORT_CMD_FEEDBACK_decode_single (cmd : List ℕ) (h : 5 ≤ cmd.length) :
    PORT_CMD_FEEDBACK_decode cmd = some ⟨cmd, [cmd.getD 3 0], [cmd.getD 4 0]⟩ := by
  unfold PORT_CMD_FEEDBACK_decode
  rw [if_pos h]
  simp [pyEq]

lemma PORT_CMD_FEEDBACK_decode_none (cmd : List ℕ) (h : ¬ 5 ≤ cmd.length) :
    PORT_CMD_FEEDBACK_decode cmd = none := by
  unfold PORT_CMD_FEEDBACK_decode
  rw [if_neg h]

lemma HUB_ACTION_init_ok (data : List ℕ) (h : 4 ≤ data.length) :
    exceptOk (HUB_ACTION_NOTIFICATION_init data)
      = decide (data.getD 0 0 ≤ data.length)
  ∧ HUB_ACTION_NOTIFICATION_init data ≠ .error .typeError := by
  unfold HUB_ACTION_NOTIFICATION_init pyIndexOk
  rw [if_pos (show 1 ≤ data.length by omega)]
  by_cases hc : data.getD 0 0 ≤ data.length
  · rw [if_pos (by simp only [Bool.and_eq_true, decide_eq_true_eq]; omega)]
    exact ⟨(decide_eq_true hc).symm, by simp⟩
  · rw [if_neg (by simp only [Bool.and_eq_true, decide_eq_true_eq]; omega)]
    exact ⟨(decide_eq_false hc).symm, by simp⟩

lemma HUB_ATTACHED_IO_init_ok (data : List ℕ) :
    exceptOk (HUB_ATTACHED_IO_NOTIFICATION_init data)
      = (decide (5 ≤ data.length)
         && (!decide (data.getD 4 0 = PERIPHERAL_EVENT_VIRTUAL_IO_ATTACHED)
             || decide (9 ≤ data.length)))
  ∧ HUB_ATTACHED_IO_NOTIFICATION_init data ≠ .error .typeError := by
  unfold HUB_ATTACHED_IO_NOTIFICATION_init
  split_ifs with h5 hin hv h9 <;> simp_all [exceptOk, not_or]

lemma DEV_GENERIC_ERROR_init_ok (data : List ℕ) :
    exceptOk (DEV_GENERIC_ERROR_NOTIFICATION_init data)
      = decide (5 ≤ data.length)
  ∧ DEV_GENERIC_ERROR_NOTIFICATION_init data ≠ .error .typeError := by
  unfold DEV_GENERIC_ERROR_NOTIFICATION_init
  split_ifs with h5 <;> simp_all [exceptOk]

lemma DEV_VALUE_init_ok (data : List ℕ) :
    exceptOk (DEV_VALUE_init data) = decide (4 ≤ data.length)
  ∧ DEV_VALUE_init data ≠ .error .typeError := by
  unfold DEV_VALUE_init
  split_ifs with hl <;> simp_all [exceptOk]

lemma DEV_PORT_NOTIFICATION_init_ok (data : List ℕ) :
    exceptOk (DEV_PORT_NOTIFICATION_init data)
      = (decide (6 ≤ data.length) && decide (data.getD 0 0 ≤ data.length))
  ∧ DEV_PORT_NOTIFICATION_init data ≠ .error .typeError := by
  unfold DEV_PORT_NOTIFICATION_init pyIndexOk
  by_cases h6 : 6 ≤ data.length
  · rw [if_pos h6]
    by_cases hc : data.getD 0 0 ≤ data.length
    · rw [if_pos (by simp only [Bool.and_eq_true, decide_eq_true_eq]; omega)]
      refine ⟨?_, by simp⟩
      rw [decide_eq_true h6, decide_eq_true hc]
      rfl
    · rw [if_neg (by simp only [Bool.and_eq_true, decide_eq_true_eq]; omega)]
      refine ⟨?_, by simp⟩
      rw [decide_eq_true h6, decide_eq_false hc]
      rfl
  · rw [if_neg h6]
    refine ⟨?_, by simp⟩
    rw [decide_eq_false h6]
    rfl

lemma EXT_SERVER_init_ok (data : List ℕ) :
    exceptOk (EXT_SERVER_NOTIFICATION_init data) = decide (6 ≤ data.length)
  ∧ EXT_SERVER_NOTIFICATION_init data ≠ .error .typeError := by
  unfold EXT_SERVER_NOTIFICATION_init
  split_ifs with h6 <;> simp_all [exceptOk]

lemma pythonRound_intCast (n : ℤ) : pythonRound ((n : ℤ) : ℚ) = n := by
  unfold pythonRound
  norm_num

lemma pythonRound_eq_of_eq_intCast (q : ℚ) (n : ℤ) (h : q = (n : ℚ)) :
    pythonRound q = n := by
  rw [h, pythonRound_intCast]

lemma Device_connect_srv_snd (o1 o2 : Bool) (s : List ℕ) :
    (Device_connect_srv o1 o2 s).2 = (connectLoop [o1, o2]).2 := by
  unfold Device_connect_srv
  by_cases h : (connectLoop [o1, o2]).1 = false
  · rw [if_pos h]
  · rw [if_neg h]
    rcases readexactly 1 s with _ | ⟨hd, rest⟩
    · rfl
    · show (match readexactly (hd.getD 0 0) rest with
        | none => ((.error "IncompleteReadError" : Except String (List ℕ)),
            (connectLoop [o1, o2]).2)
        | some (data, _) => (.ok data, (connectLoop [o1, o2]).2)).2
          = (connectLoop [o1, o2]).2
      rcases readexactly (hd.getD 0 0) rest with _ | ⟨data, tail⟩
      · rfl
      · rfl

lemma Device_cmd_send_fst (writeOk : Bool) (cmd : List ℕ) (log : SendLog) :
    (Device_cmd_send writeOk cmd log).1 = writeOk := by
  cases writeOk <;> rfl

lemma syncFeedback_finished_of_ne_one (cmd : List ℕ)
    (h : trailingByte cmd ≠ 1) (fl : SyncMotorFlags) :
    (SynchronizedMotor_cmd_feedback_notification_set cmd fl).E_CMD_FINISHED
      = true := by
  unfold SynchronizedMotor_cmd_feedback_notification_set
  rw [if_neg h]
  by_cases h10 : trailingByte cmd = 10
  · rw [if_pos h10]
  · rw [if_neg h10]

/-! Claim C1 -/

/-- C1: the feedback classification is decided by the trailing byte of the
buffer.  For the synchronized motor's handler this holds exactly: trailing
byte `0x01` sets the started-signal, clears the finished-signal and clears
the port-free flag; trailing byte `0x0a` and every other trailing byte clear
the started-signal, set the finished-signal and release the port-free flag.
The single motor's handler, however, raises `NameError` (unbound `fut`,
resp. `_wst`) in every branch before any signal is touched — evaluated here
on the three representative buffers `05 00 82 10 01 / 0a / 04`. -/
theorem C1_feedback_classification (cmd : List ℕ) (fl : SyncMotorFlags)
    (fl1 : MotorFlags) :
    ((SynchronizedMotor_cmd_feedback_notification_set cmd fl).E_CMD_STARTED
        = decide (trailingByte cmd = 1)
      ∧ (SynchronizedMotor_cmd_feedback_notification_set cmd fl).E_CMD_FINISHED
        = !decide (trailingByte cmd = 1)
      ∧ (SynchronizedMotor_cmd_feedback_notification_set cmd fl).port_free
        = !decide (trailingByte cmd = 1))
  ∧ SingleMotor_cmd_feedback_notification_set [5, 0, 130, 16, 1] fl1
      = .error (.nameError "fut")
  ∧ SingleMotor_cmd_feedback_notification_set [5, 0, 130, 16, 10] fl1
      = .error (.nameError "wst")
  ∧ SingleMotor_cmd_feedback_notification_set [5, 0, 130, 16, 4] fl1
      = .error (.nameError "wst") := by
  refine ⟨?_, rfl, rfl, rfl⟩
  unfold SynchronizedMotor_cmd_feedback_notification_set
  by_cases h1 : trailingByte cmd = 1
  · simp [h1]
  · by_cases h10 : trailingByte cmd = 10 <;> simp [h1, h10]

/-! Claim C3 (the decode shape, needed before C2 uses nothing of it) -/

/-- C3 counterexample: a feedback buffer declaring total length 7 decodes to
exactly ONE feedback byte and ONE port entry, not two — the guards
`COMMAND[0] == b'\x07'` / `b'\x09'` compare an `int` with a `bytes` literal
and are never true. -/
theorem C3_feedback_count_counterexample :
    (PORT_CMD_FEEDBACK_decode [7, 0, 130, 16, 1, 17, 10]).map
      (fun fb => (fb.m_cmd_feedback.length, fb.m_port.length))
      = some (1, 1)
  ∧ (1 : ℕ) ≠ 2 := by decide

/-- C3 amended: decoding a `CommandFeedback` buffer of any declared total
length (5, 7 and 9 alike) yields exactly one feedback byte (`COMMAND[4]`)
and one port entry (`COMMAND[3]`), because the length-dispatch guards
compare an `int` against a `bytes` literal and never fire; buffers shorter
than 5 bytes raise `IndexError`. -/
theorem C3_single_feedback_amended (cmd : List ℕ) (h : 5 ≤ cmd.length) :
    PORT_CMD_FEEDBACK_decode cmd
      = some ⟨cmd, [cmd.getD 3 0], [cmd.getD 4 0]⟩ :=
  PORT_CMD_FEEDBACK_decode_single cmd h

/-- C3 amended, witness at the length-7 buffer of the counterexample's
family. -/
theorem C3_single_feedback_amended_witness :
    PORT_CMD_FEEDBACK_decode [9, 0, 130, 16, 1, 17, 10, 18, 1]
      = some ⟨[9, 0, 130, 16, 1, 17, 10, 18, 1], [16], [1]⟩ :=
  C3_single_feedback_amended [9, 0, 130, 16, 1, 17, 10, 18, 1] (by decide)

/-! Claim C4 -/

/-- C4 counterexample: a combined feedback buffer
`07 00 82 10 01 11 0a` whose FIRST per-motor feedback byte is `0x01`
(started, non-terminal) and whose second is `0x0a` releases the virtual
port-free flag and both physical port-free flags — a terminal state on one
side only is sufficient, contrary to the claim. -/
theorem C4_partial_terminal_release_counterexample :
    (SynchronizedMotor_cmd_feedback_notification_set
        [7, 0, 130, 16, 1, 17, 10] ⟨true, false, false, false, false⟩).port_free
      = true
  ∧ (SynchronizedMotor_cmd_feedback_notification_set
        [7, 0, 130, 16, 1, 17, 10] ⟨true, false, false, false, false⟩).motor_a_port_free
      = true
  ∧ (SynchronizedMotor_cmd_feedback_notification_set
        [7, 0, 130, 16, 1, 17, 10] ⟨true, false, false, false, false⟩).motor_b_port_free
      = true
  ∧ ([7, 0, 130, 16, 1, 17, 10] : List ℕ).getD 4 0 = 1 := by decide

/-- C4 amended: the release of the virtual gate and of both physical
motors' port-free flags is decided solely by the trailing byte of the
combined feedback buffer (the second per-motor feedback byte when two are
present): all three flags are released exactly when that byte is not
`0x01`, regardless of the other per-motor feedback byte, and all three are
cleared when it is `0x01`. -/
theorem C4_trailing_byte_release_amended (cmd : List ℕ) (fl : SyncMotorFlags) :
    ((SynchronizedMotor_cmd_feedback_notification_set cmd fl).port_free
        = !decide (trailingByte cmd = 1))
  ∧ ((SynchronizedMotor_cmd_feedback_notification_set cmd fl).motor_a_port_free
        = !decide (trailingByte cmd = 1))
  ∧ ((SynchronizedMotor_cmd_feedback_notification_set cmd fl).motor_b_port_free
        = !decide (trailingByte cmd = 1)) := by
  unfold SynchronizedMotor_cmd_feedback_notification_set
  by_cases h1 : trailingByte cmd = 1
  · simp [h1]
  · by_cases h10 : trailingByte cmd = 10 <;> simp [h1, h10]

/-! Claim C2 -/

/-- C2 counterexample: for a concrete `CMD_SET_ACC_DECC_PROFILE` command the
length byte written at offset 1 is 9 while the fully assembled buffer
(handle + length + hub_id + type + payload) is 10 bytes long — the length
byte does not count the handle byte, refuting
`length_byte == len(COMMAND)`. -/
theorem C2_length_byte_counterexample :
    (CMD_SET_ACC_DECC_PROFILE_build SUB_COMMAND_SET_ACC_PROFILE 0 16 0 0 0).map
      (fun buf => (buf.getD 1 0, buf.length)) = .ok (9, 10)
  ∧ (9 : ℕ) ≠ 10 := ⟨rfl, by decide⟩

/-- C2 amended: for every downstream command constructor the one-byte length
field equals the byte count of the assembled buffer MINUS the leading handle
byte, i.e. it counts itself, `hub_id`, the type byte and the payload but not
the transport handle (`m_length = 1 + len(header + payload)` is computed
before the handle is prepended).  Stated for the two cited constructors,
`CMD_SET_ACC_DECC_PROFILE` and `CMD_TURN_SPEED_DEV` (both synced and
unsynced via the `synced` parameter). -/
theorem C2_length_byte_amended (profile_type port start_cond
    completion_cond : ℕ) (time_to_full_speed : ℤ) (profile_nr : ℕ)
    (buf : List ℕ)
    (h : CMD_SET_ACC_DECC_PROFILE_build profile_type port start_cond
        completion_cond time_to_full_speed profile_nr = .ok buf)
    (synced : Bool) (port2 sc2 cc2 : ℕ)
    (speed direction speed_1 direction_1 speed_2 direction_2 : ℤ)
    (abs_max_power profile_nr2 use_acc use_dec : ℕ) :
    buf.getD 1 0 = buf.length - 1
  ∧ (CMD_TURN_SPEED_DEV_build synced port2 sc2 cc2 speed direction speed_1
        direction_1 speed_2 direction_2 abs_max_power profile_nr2 use_acc
        use_dec).getD 1 0
      = (CMD_TURN_SPEED_DEV_build synced port2 sc2 cc2 speed direction
          speed_1 direction_1 speed_2 direction_2 abs_max_power profile_nr2
          use_acc use_dec).length - 1 := by
  constructor
  · unfold CMD_SET_ACC_DECC_PROFILE_build at h
    split at h
    · cases h
      simp [uintle16, CMD_COMMON_MESSAGE_HEADER]
    · cases h
  · unfold CMD_TURN_SPEED_DEV_build
    cases synced <;> simp [CMD_COMMON_MESSAGE_HEADER]

/-- C2 amended, witness: the in-range profile command and a concrete speed
command both satisfy the amended length relation. -/
theorem C2_length_byte_amended_witness :
    ([14, 9, 0, 129, 0, 0, 5, 0, 0, 0] : List ℕ).getD 1 0
      = ([14, 9, 0, 129, 0, 0, 5, 0, 0, 0] : List ℕ).length - 1
  ∧ (CMD_TURN_SPEED_DEV_build false 0 16 0 50 1 0 1 0 1 100 0 1 2).getD 1 0
      = (CMD_TURN_SPEED_DEV_build false 0 16 0 50 1 0 1 0 1 100 0 1
          2).length - 1 :=
  C2_length_byte_amended 5 0 16 0 0 0 [14, 9, 0, 129, 0, 0, 5, 0, 0, 0]
    (by rfl) false 0 16 0 50 1 0 1 0 1 100 0 1 2

/-! Claim C5 -/

/-- C5 counterexample: a synchronized goto-position run whose transport send
succeeded and whose terminal feedback is a DISCARD (trailing byte `0x04`)
unblocks and returns `true` — the send result — not the boolean `false` the
claim requires. -/
theorem C5_discard_returns_true_counterexample :
    GOTO_ABS_POS_SYNCED_run true [14, 13, 0, 129, 16]
      [[5, 0, 130, 16, 1], [5, 0, 130, 16, 4]] = some true
  ∧ (some true : Option Bool) ≠ some false := by decide

/-- C5 amended: after a discarded (or any non-started) terminal feedback the
caller of `GOTO_ABS_POS_SYNCED` is unblocked and no exception is raised for
the discard, but the operation returns the transport-send result `s` — it
returns `false` exactly when the write itself failed, never because of the
discard.  In the single-motor generation the discard branch of
`SingleMotor.cmd_feedback_notification_set` raises `NameError` on the
unbound `_wst` before it could set the finished-signal. -/
theorem C5_discard_semantics_amended (writeOk : Bool) (cmd term : List ℕ)
    (notifs : List (List ℕ)) (h : trailingByte term ≠ 1) :
    GOTO_ABS_POS_SYNCED_run writeOk cmd (notifs ++ [term]) = some writeOk
  ∧ (GOTO_ABS_POS_SYNCED_run writeOk cmd (notifs ++ [term]) = some false
       ↔ writeOk = false)
  ∧ SingleMotor_cmd_feedback_notification_set term
      { E_CMD_STARTED := false, E_CMD_FINISHED := true, port_free := false }
      = .error (.nameError "wst") := by
  have hrun : GOTO_ABS_POS_SYNCED_run writeOk cmd (notifs ++ [term])
      = some writeOk := by
    unfold GOTO_ABS_POS_SYNCED_run
    simp only [List.foldl_append, List.foldl_cons, List.foldl_nil,
      syncFeedback_finished_of_ne_one term h, if_true, Device_cmd_send_fst]
  refine ⟨hrun, ?_, ?_⟩
  · rw [hrun]
    cases writeOk <;> simp
  · unfold SingleMotor_cmd_feedback_notification_set
    rw [if_neg h]
    by_cases h10 : trailingByte term = 10
    · rw [if_pos h10]
    · rw [if_neg h10]

/-- C5 amended, witness at a started-then-discarded notification sequence
with a successful send. -/
theorem C5_discard_semantics_amended_witness :
    GOTO_ABS_POS_SYNCED_run true [14, 13, 0, 129, 16]
      ([[5, 0, 130, 16, 1]] ++ [[5, 0, 130, 16, 4]]) = some true
  ∧ (GOTO_ABS_POS_SYNCED_run true [14, 13, 0, 129, 16]
      ([[5, 0, 130, 16, 1]] ++ [[5, 0, 130, 16, 4]]) = some false
       ↔ true = false)
  ∧ SingleMotor_cmd_feedback_notification_set [5, 0, 130, 16, 4]
      { E_CMD_STARTED := false, E_CMD_FINISHED := true, port_free := false }
      = .error (.nameError "wst") :=
  C5_discard_semantics_amended true [14, 13, 0, 129, 16] [5, 0, 130, 16, 4]
    [[5, 0, 130, 16, 1]] (by decide)

/-! Claim C6 -/

/-- C6: the acceleration/deceleration-profile time guard.  In-range times
(`0 ≤ t ≤ 9999`) produce the encoded buffer with the time as an exact 2-byte
little-endian unsigned integer (never clamped: the two bytes reassemble to
`t`), and out-of-range times raise `ValueError` at construction.  But the
boundary `10000` itself — inside the claim's (and the code's own error
message's) inclusive range `[0..10000]` — is REJECTED, because
`range(0, 10000)` contains only `0..9999`. -/
theorem C6_acc_profile_range (t : ℤ) (h0 : 0 ≤ t) (h1 : t < 10000) :
    CMD_SET_ACC_DECC_PROFILE_build SUB_COMMAND_SET_ACC_PROFILE 0 16 0 10000 0
      = .error "ValueError: exceeds the range limit of [0..10000]..."
  ∧ CMD_SET_ACC_DECC_PROFILE_build SUB_COMMAND_SET_ACC_PROFILE 0 16 0 (-1) 0
      = .error "ValueError: exceeds the range limit of [0..10000]..."
  ∧ CMD_SET_ACC_DECC_PROFILE_build SUB_COMMAND_SET_ACC_PROFILE 0 16 0 t 0
      = .ok ([14, 9, 0, 129, 0, 0, 5] ++ uintle16 t.toNat ++ [0])
  ∧ t.toNat % 256 + 256 * (t.toNat / 256 % 256) = t.toNat := by
  refine ⟨rfl, rfl, ?_, ?_⟩
  · unfold CMD_SET_ACC_DECC_PROFILE_build
    rw [if_pos ⟨h0, h1⟩]
    have hl : Nat.land 16 0 = 0 := by decide
    simp [CMD_COMMON_MESSAGE_HEADER, MESSAGE_TYPE_DNS_PORT_CMD,
      SUB_COMMAND_SET_ACC_PROFILE, uintle16, hl]
  · have hlt : t.toNat / 256 < 256 := by omega
    rw [Nat.mod_eq_of_lt hlt]
    exact Nat.mod_add_div t.toNat 256

/-- C6 witness at the largest accepted time value, 9999. -/
theorem C6_acc_profile_range_witness :
    (0 : ℤ) ≤ 9999 ∧ (9999 : ℤ) < 10000
  ∧ CMD_SET_ACC_DECC_PROFILE_build SUB_COMMAND_SET_ACC_PROFILE 0 16 0 9999 0
      = .ok ([14, 9, 0, 129, 0, 0, 5] ++ uintle16 (9999 : ℤ).toNat ++ [0]) :=
  ⟨by decide, by decide, (C6_acc_profile_range 9999 (by decide) (by decide)).2.2.1⟩

/-! Claim C7 -/

/-- C7 counterexample: an inbound buffer whose type byte is the hub-alert
message type (`0x03`) — one of the eight variants the claim lists — raises
`TypeError` instead of decoding to `HUB_ALERT_NOTIFICATION`: the builder's
dispatch has no arm for it. -/
theorem C7_hub_alert_counterexample :
    UpStreamMessageBuilder_build [6, 0, 3, 2, 1, 0] = .error .typeError
  ∧ MESSAGE_TYPE_UPS_DNS_HUB_ALERT = 3 := ⟨rfl, rfl⟩

/-- C7 amended: the builder dispatches over SEVEN variants only, and the
decode error `TypeError` is raised exactly when the type byte at offset 2
matches none of the seven dispatched message types (hub action, hub
attached-io, generic error, command feedback, port value, port notification,
external server) — in particular the hub-alert type byte raises `TypeError`.
When the type byte does match one of the seven, decoding returns the
corresponding variant if and only if the buffer is also long enough for that
variant's own field reads (`variantFieldsInRange`); otherwise the variant
constructor raises `IndexError`, never `TypeError`.  Stated for every buffer
long enough for the builder's own `data[3]` access. -/
theorem C7_seven_variant_total_amended (data : List ℕ) (h : 4 ≤ data.length) :
    (UpStreamMessageBuilder_build data = .error .typeError
       ↔ data.getD 2 0 ∉ dispatchedTypeBytes)
  ∧ (exceptOk (UpStreamMessageBuilder_build data)
       = (decide (data.getD 2 0 ∈ dispatchedTypeBytes)
          && variantFieldsInRange data)) := by
  have h4 : ¬ data.length < 4 := by omega
  unfold UpStreamMessageBuilder_build variantFieldsInRange
  rw [if_neg h4]
  simp only [MESSAGE_TYPE_UPS_DNS_HUB_ACTION,
    MESSAGE_TYPE_UPS_HUB_ATTACHED_IO_byte, MESSAGE_TYPE_UPS_HUB_GENERIC_ERROR,
    MESSAGE_TYPE_UPS_PORT_CMD_FEEDBACK, MESSAGE_TYPE_UPS_PORT_VALUE,
    MESSAGE_TYPE_UPS_PORT_NOTIFICATION, MESSAGE_TYPE_UPS_DNS_EXT_SERVER_CMD,
    dispatchedTypeBytes]
  generalize data.getD 2 0 = b
  by_cases h1 : b = 2
  · simp [h1, (HUB_ACTION_init_ok data h).1, (HUB_ACTION_init_ok data h).2]
  by_cases h2 : b = 4
  · simp [h1, h2, (HUB_ATTACHED_IO_init_ok data).1,
      (HUB_ATTACHED_IO_init_ok data).2]
  by_cases h3 : b = 5
  · simp [h1, h2, h3, (DEV_GENERIC_ERROR_init_ok data).1,
      (DEV_GENERIC_ERROR_init_ok data).2]
  by_cases h5 : b = 130
  · by_cases hl : 5 ≤ data.length
    · rw [PORT_CMD_FEEDBACK_decode_single data hl]
      simp [h1, h2, h3, h5, exceptOk, hl]
    · rw [PORT_CMD_FEEDBACK_decode_none data hl]
      simp [h1, h2, h3, h5, exceptOk, hl]
  by_cases h6 : b = 69
  · simp [h1, h2, h3, h5, h6, (DEV_VALUE_init_ok data).1,
      (DEV_VALUE_init_ok data).2, show 4 ≤ data.length from h]
  by_cases h7 : b = 71
  · simp [h1, h2, h3, h5, h6, h7, (DEV_PORT_NOTIFICATION_init_ok data).1,
      (DEV_PORT_NOTIFICATION_init_ok data).2]
  by_cases h8 : b = 92
  · simp [h1, h2, h3, h5, h6, h7, h8, (EXT_SERVER_init_ok data).1,
      (EXT_SERVER_init_ok data).2]
  · simp [h1, h2, h3, h5, h6, h7, h8, exceptOk]

/-- C7 amended, witness at a well-formed command-feedback buffer. -/
theorem C7_seven_variant_total_amended_witness :
    (4 ≤ ([5, 0, 130, 16, 1] : List ℕ).length)
  ∧ (UpStreamMessageBuilder_build [5, 0, 130, 16, 1] = .error .typeError
       ↔ ([5, 0, 130, 16, 1] : List ℕ).getD 2 0 ∉ dispatchedTypeBytes)
  ∧ (exceptOk (UpStreamMessageBuilder_build [5, 0, 130, 16, 1])
       = (decide (([5, 0, 130, 16, 1] : List ℕ).getD 2 0 ∈ dispatchedTypeBytes)
          && variantFieldsInRange [5, 0, 130, 16, 1])) :=
  ⟨by decide, C7_seven_variant_total_amended [5, 0, 130, 16, 1] (by decide)⟩

/-! Claim C8 -/

/-- C8 counterexample: at `degrees = 100` and gear ratios `(1, 1)` the
source's degrees expression evaluates to 150 while the claim's averaged
formula gives 100 — the code divides only the second rounded target by two
(missing parentheses), it does not average the pair. -/
theorem C8_degrees_formula_counterexample :
    START_MOVE_DEGREES_SYNCED_degrees 100 1 1 = 150
  ∧ claimAveragedSyncedDegrees 100 1 1 = 100 := by
  constructor
  · unfold START_MOVE_DEGREES_SYNCED_degrees
    rw [mul_one, pythonRound_intCast]
    exact pythonRound_eq_of_eq_intCast _ 150 (by push_cast; norm_num)
  · unfold claimAveragedSyncedDegrees
    rw [mul_one, pythonRound_intCast]
    exact pythonRound_eq_of_eq_intCast _ 100 (by push_cast; norm_num)

/-- C8 amended: the encoded degrees target of a synchronized move equals
`round(round(degrees * gear_ratio_a) + round(degrees * gear_ratio_b) / 2)` —
the first rounded per-motor target plus HALF the second, rounded — not the
average of the two.  In particular, with both gear ratios 1 the source
encodes `round(3 * degrees / 2)` while the claim's average would give back
`degrees` itself. -/
theorem C8_degrees_formula_amended (d : ℤ) (ga gb : ℚ) (n : ℤ) :
    START_MOVE_DEGREES_SYNCED_degrees d ga gb = amendedSyncedDegrees d ga gb
  ∧ START_MOVE_DEGREES_SYNCED_degrees n 1 1 = pythonRound ((3 * n : ℚ) / 2)
  ∧ claimAveragedSyncedDegrees n 1 1 = n := by
  refine ⟨rfl, ?_, ?_⟩
  · unfold START_MOVE_DEGREES_SYNCED_degrees
    rw [mul_one, pythonRound_intCast]
    congr 1
    ring
  · unfold claimAveragedSyncedDegrees
    rw [mul_one, pythonRound_intCast]
    have : (((n + n : ℤ) : ℚ) / 2) = ((n : ℤ) : ℚ) := by
      push_cast
      ring
    rw [this, pythonRound_intCast]

/-! Claim C9 -/

/-- C9: the initial connect procedure sends the request at most twice — one
retry after a failed first send; two failures raise `ConnectionError`; the
first successful send (first or second attempt) stops the loop and reads the
length-prefixed answer from the stream. -/
theorem C9_connect_retry (o1 o2 : Bool) (n : ℕ) (rest : List ℕ) :
    (Device_connect_srv o1 o2 (n :: rest)).2 = (if o1 then 1 else 2)
  ∧ (Device_connect_srv o1 o2 (n :: rest)).2 ≤ 2
  ∧ Device_connect_srv false false (n :: rest)
      = (.error "ConnectionError", 2)
  ∧ (Device_connect_srv true o2 (n :: rest)).1
      = (if n ≤ rest.length then .ok (rest.take n)
         else .error "IncompleteReadError")
  ∧ (Device_connect_srv false true (n :: rest)).1
      = (if n ≤ rest.length then .ok (rest.take n)
         else .error "IncompleteReadError") := by
  have hread1 : readexactly 1 (n :: rest) = some ([n], rest) := by
    unfold readexactly
    rw [if_pos (by simp)]
    simp
  refine ⟨?_, ?_, ?_, ?_, ?_⟩
  · rw [Device_connect_srv_snd]
    cases o1
    · cases o2 <;> rfl
    · rfl
  · rw [Device_connect_srv_snd]
    cases o1
    · cases o2 <;> simp [connectLoop]
    · simp [connectLoop]
  · unfold Device_connect_srv
    rfl
  · unfold Device_connect_srv
    rw [if_neg (by simp [connectLoop])]
    rw [hread1]
    show (match readexactly (List.getD [n] 0 0) rest with
      | none => ((.error "IncompleteReadError" : Except String (List ℕ)),
          (connectLoop [true, o2]).2)
      | some (data, _) => (.ok data, (connectLoop [true, o2]).2)).1 = _
    by_cases hn : n ≤ rest.length
    · rw [if_pos hn]
      unfold readexactly
      rw [if_pos (by simpa using hn)]
      rfl
    · rw [if_neg hn]
      unfold readexactly
      rw [if_neg (by simpa using hn)]
  · unfold Device_connect_srv
    rw [if_neg (by simp [connectLoop])]
    rw [hread1]
    show (match readexactly (List.getD [n] 0 0) rest with
      | none => ((.error "IncompleteReadError" : Except String (List ℕ)),
          (connectLoop [false, true]).2)
      | some (data, _) => (.ok data, (connectLoop [false, true]).2)).1 = _
    by_cases hn : n ≤ rest.length
    · rw [if_pos hn]
      unfold readexactly
      rw [if_pos (by simpa using hn)]
      rfl
    · rw [if_neg hn]
      unfold readexactly
      rw [if_neg (by simpa using hn)]

lemma AMotor_watch_cycle_eq (stall_bias : ℚ) (pos : ℚ → ℤ) (tts t0 : ℚ)
    (st : WatchdogState) :
    AMotor_watch_cycle stall_bias pos tts t0 st
      = ((if |((pos (t0 + tts) - pos t0 : ℤ) : ℚ)| < stall_bias
          then (⟨true, st.on_stalled_calls + 1⟩ : WatchdogState)
          else ⟨false, st.on_stalled_calls⟩), t0 + tts) := by
  simp only [AMotor_watch_cycle]
  split_ifs <;> rfl

/-! Claim C10 -/

/-- C10 counterexample: with `stall_bias = 5`, `tts = 1/5 s` and a position
constant at 100, the SECOND watchdog cycle invokes the stall callback again
(2 invocations after 2 cycles) — the watchdog does not disarm after
signalling the first stall, contrary to the claim's "the watchdog then
disarms". -/
theorem C10_no_disarm_counterexample :
    (AMotor_watch_run 5 (fun _ => 100) (1 / 5) 2 0
      ⟨false, 0⟩).1.on_stalled_calls = 2
  ∧ (2 : ℕ) ≠ 1 := by
  constructor
  · norm_num [AMotor_watch_run, AMotor_watch_cycle]
  · decide

/-- C10 amended: each watchdog cycle compares the position after
`time_to_stalled` with the baseline recorded at arm time: a delta below
`stall_bias` sets the stalled signal and invokes the callback once more,
a delta at or above it leaves the signal unset; either way the loop
continues and re-arms with a fresh baseline at `t0 + tts` (it never
disarms by itself).  The two concrete scenarios hold: a position constant
at 100 sets the signal by `t = 0.25 s`, a position stepping from 100 to 120
at `t = 0.1 s` leaves it unset at `t = 0.25 s`
(`time_to_stalled = 0.2 s`, `stall_bias = 5`). -/
theorem C10_watchdog_amended (stall_bias tts t0 : ℚ) (pos : ℚ → ℤ)
    (st : WatchdogState) :
    ((AMotor_watch_cycle stall_bias pos tts t0 st).1.E_MOTOR_STALLED
       = decide (|((pos (t0 + tts) - pos t0 : ℤ) : ℚ)| < stall_bias))
  ∧ ((AMotor_watch_cycle stall_bias pos tts t0 st).1.on_stalled_calls
       = st.on_stalled_calls
         + (if |((pos (t0 + tts) - pos t0 : ℤ) : ℚ)| < stall_bias
            then 1 else 0))
  ∧ ((AMotor_watch_cycle stall_bias pos tts t0 st).2 = t0 + tts)
  ∧ stalledSignalAt 5 (fun _ => 100) (1 / 5) (1 / 4) = true
  ∧ stalledSignalAt 5 (fun t => if t < 1 / 10 then (100 : ℤ) else 120)
      (1 / 5) (1 / 4) = false := by
  have hfloor : (⌊((1 : ℚ) / 4) / ((1 : ℚ) / 5)⌋ : ℤ) = 1 := by
    rw [show ((1 : ℚ) / 4) / ((1 : ℚ) / 5) = 5 / 4 by norm_num]
    rw [Int.floor_eq_iff]
    norm_num
  refine ⟨?_, ?_, ?_, ?_, ?_⟩
  · rw [AMotor_watch_cycle_eq]
    split_ifs with hd
    · exact (decide_eq_true hd).symm
    · exact (decide_eq_false hd).symm
  · rw [AMotor_watch_cycle_eq]
    split_ifs with hd <;> rfl
  · rw [AMotor_watch_cycle_eq]
  · unfold stalledSignalAt
    rw [hfloor]
    show (AMotor_watch_run 5 (fun _ => 100) (1 / 5) 1 0
      ⟨false, 0⟩).1.E_MOTOR_STALLED = true
    simp only [AMotor_watch_run]
    rw [AMotor_watch_cycle_eq]
    norm_num
  · unfold stalledSignalAt
    rw [hfloor]
    show (AMotor_watch_run 5 (fun t => if t < 1 / 10 then (100 : ℤ) else 120)
      (1 / 5) 1 0 ⟨false, 0⟩).1.E_MOTOR_STALLED = false
    simp only [AMotor_watch_run]
    rw [AMotor_watch_cycle_eq]
    norm_num

end LegoBTLE
